import Mathlib

/-!
Shallow embedding of the caregiver-support rule-based classifier
(source: app.py).  Text is modelled as lists of characters; the
regex vocabulary of the source consists solely of word-bounded
alternations of literal phrases (plus optional-whitespace gaps in the
fever pattern), which is captured exactly by the pattern type below.
All matching in the source runs on lowercased text with re.IGNORECASE,
so pattern literals are stored lowercased (including FAST -> fast).
The character-class model is ASCII-faithful, which covers every
pattern literal and every concrete scenario of the specification.
-/

set_option maxRecDepth 8000

namespace Caregiver

/-- ASCII whitespace, exactly the characters stripped by Python str.strip
for ASCII input: tab 9, newline 10, vertical tab 11, form feed 12,
carriage return 13 and space 32. -/
def isSpace (c : Char) : Bool :=
  c.toNat == 32 || (9 ≤ c.toNat && c.toNat ≤ 13)

/-- Word characters of the regex word-boundary class (ASCII model of
the backslash-w class): letters, digits and underscore. -/
def isWordChar (c : Char) : Bool :=
  (97 ≤ c.toNat && c.toNat ≤ 122) || (65 ≤ c.toNat && c.toNat ≤ 90) ||
    (48 ≤ c.toNat && c.toNat ≤ 57) || c.toNat == 95

/-- ASCII lowercasing of one character, the character-level content of
Python str.lower on ASCII text. -/
def lowerChar (c : Char) : Char :=
  match c with
  | 'A' => 'a' | 'B' => 'b' | 'C' => 'c' | 'D' => 'd' | 'E' => 'e'
  | 'F' => 'f' | 'G' => 'g' | 'H' => 'h' | 'I' => 'i' | 'J' => 'j'
  | 'K' => 'k' | 'L' => 'l' | 'M' => 'm' | 'N' => 'n' | 'O' => 'o'
  | 'P' => 'p' | 'Q' => 'q' | 'R' => 'r' | 'S' => 's' | 'T' => 't'
  | 'U' => 'u' | 'V' => 'v' | 'W' => 'w' | 'X' => 'x' | 'Y' => 'y'
  | 'Z' => 'z'
  | c => c

/-- Leading and trailing whitespace removal, Python str.strip(). -/
def trim (l : List Char) : List Char :=
  ((l.dropWhile isSpace).reverse.dropWhile isSpace).reverse

/-- Source def normalize: (text or "").strip().lower(). -/
def normalize (text : List Char) : List Char :=
  (trim text).map lowerChar

/-- One segment of a pattern alternative: a literal run of characters,
or an optional-whitespace gap (backslash-s-star, used only in the fever
pattern, always followed by a literal starting with a non-space
character, so its regex semantics is exactly "skip any whitespace"). -/
inductive Seg where
  | lit : List Char → Seg
  | ws0 : Seg

/-- A pattern of the source vocabulary: a word-bounded alternation;
each alternative is a list of segments.  Every alternative in the
source starts and ends with a word character, so the surrounding
word-boundary anchors amount to: no word character directly before the
match and none directly after it. -/
abbrev Pat := List (List Seg)

/-- If s is a literal prefix of t, return the remainder of t. -/
def dropLit : List Char → List Char → Option (List Char)
  | [], t => some t
  | _ :: _, [] => none
  | a :: s, b :: t => if a = b then dropLit s t else none

/-- Match the segments of one alternative at the start of t, requiring
the trailing word boundary at the end of the match. -/
def segsMatch : List Seg → List Char → Bool
  | [], [] => true
  | [], c :: _ => !isWordChar c
  | Seg.lit s :: segs, t =>
    match dropLit s t with
    | some t2 => segsMatch segs t2
    | none => false
  | Seg.ws0 :: segs, t => segsMatch segs (t.dropWhile isSpace)

/-- Scan every position of the text for a match of some alternative,
requiring the leading word boundary: the previous character, when
there is one, is not a word character. -/
def searchFrom (alts : Pat) (prevIsWord : Bool) (t : List Char) : Bool :=
  match t with
  | [] => false
  | c :: rest =>
    (!prevIsWord && alts.any (fun a => segsMatch a t)) ||
      searchFrom alts (isWordChar c) rest

/-- re.search of a word-bounded alternation pattern: true iff some
alternative matches somewhere in the text. -/
def reSearch (p : Pat) (t : List Char) : Bool :=
  searchFrom p false t

/-- The ASCII apostrophe character, used inside several pattern
literals of the source. -/
def apos : Char := Char.ofNat 39

/-- A single-alternative helper: one literal phrase. -/
def L (s : String) : List Seg := [Seg.lit s.data]

/-- A literal phrase containing one apostrophe, spliced between the
two given pieces. -/
def L2 (a b : String) : List Seg := [Seg.lit (a.data ++ apos :: b.data)]

/-- Source table EMERGENCY_PATTERNS. -/
def EMERGENCY_PATTERNS : List (Pat × String) := [
  ([L "chest pain", L "pressure in chest", L "heart attack"],
    "Possible chest-pain emergency"),
  ([L "trouble breathing", L2 "can" "t breathe", L "cannot breathe",
    L "shortness of breath", L "turning blue"], "Breathing emergency"),
  ([L "stroke", L "face droop", L "slurred speech", L "arm weakness",
    L "fast"], "Possible stroke signs"),
  ([L "unconscious", L "unresponsive", L2 "won" "t wake", L "not waking"],
    "Unresponsive person"),
  ([L "seizure", L "convulsion"], "Seizure/convulsion"),
  ([L "heavy bleeding", L2 "won" "t stop bleeding", L "bleeding a lot"],
    "Severe bleeding"),
  ([L "suicidal", L "kill myself", L "end my life", L "self harm"],
    "Self-harm risk"),
  ([L "overdose", L "took too many pills", L "poisoned"],
    "Possible overdose/poisoning")]

/-- First alternative of the fever pattern: fever, optional spaces,
the word over, optional spaces, 103. -/
def feverAlt1 : List Seg :=
  [Seg.lit "fever".data, Seg.ws0, Seg.lit "over".data, Seg.ws0, Seg.lit "103".data]

/-- Second alternative of the fever pattern, with the word above. -/
def feverAlt2 : List Seg :=
  [Seg.lit "fever".data, Seg.ws0, Seg.lit "above".data, Seg.ws0, Seg.lit "103".data]

/-- Third alternative of the fever pattern: fever, optional spaces, 103. -/
def feverAlt3 : List Seg :=
  [Seg.lit "fever".data, Seg.ws0, Seg.lit "103".data]

/-- Source table URGENT_PATTERNS. -/
def URGENT_PATTERNS : List (Pat × String) := [
  ([feverAlt1, feverAlt2, feverAlt3], "High fever"),
  ([L "new confusion", L "sudden confusion", L "delirium",
    L "not making sense"], "Sudden confusion"),
  ([L "fall", L "fell", L "hit their head", L "hit her head",
    L "hit his head", L "head injury"], "Fall or head impact"),
  ([L "severe pain", L "worst pain"], "Severe pain"),
  ([L "dehydrated", L "no urine", L "not peeing", L "dry mouth"],
    "Possible dehydration")]

/-- Source pattern MEDICATION_MENTION. -/
def MEDICATION_MENTION : Pat :=
  [L "med", L "meds", L "medicine", L "medication", L "pill", L "dose",
   L "dosage", L "prescription", L "refill"]

/-- Source table TOPIC_KEYWORDS, in dict insertion order; each topic
maps to its list of pattern variants (each a singleton list in the
source). -/
def TOPIC_KEYWORDS : List (String × List Pat) := [
  ("agitation_or_anxiety",
    [[L "agitated", L "agitation", L "anxious", L "panic", L "restless",
      L "irritable"]]),
  ("sleep", [[L2 "can" "t sleep", L "insomnia", L "sleeping all day",
    L "sleepy"]]),
  ("pain", [[L "pain", L "hurts", L "ache", L "aching"]]),
  ("memory_or_confusion",
    [[L "forgetful", L "memory", L "confused", L "confusion", L "dementia",
      L "delirium"]]),
  ("eating_drinking",
    [[L "not eating", L "not drinking", L2 "won" "t eat", L2 "won" "t drink",
      L "loss of appetite"]]),
  ("caregiver_stress",
    [[L "burnout", L "overwhelmed", L "exhausted", L2 "can" "t do this",
      L "no support"]]),
  ("safety", [[L "wandering", L "left the stove on", L "unsafe",
    L "falls risk", L "choking"]]),
  ("mood", [[L "depressed", L "hopeless", L "crying", L "sad"]])]

/-- Source table GENERAL_STEPS. -/
def GENERAL_STEPS : List String := [
  "Make sure the person is **safe right now** (remove hazards, ensure supervision if needed).",
  "Gather **facts**: when it started, what changed, triggers, what helped/worsened it.",
  "If symptoms are **new, severe, or worsening**, contact a licensed clinician for guidance.",
  "If there’s any **immediate danger**, call your local emergency number."]

/-- Source def find_matches: collect the label of every pattern whose
regex matches the text, in table order. -/
def find_matches (patterns : List (Pat × String)) (text : List Char) : List String :=
  patterns.filterMap (fun pl => if reSearch pl.1 text then some pl.2 else none)

/-- Executable lexicographic code-point comparison of character lists,
the order Python sorted uses on strings. -/
def lexLe : List Char → List Char → Bool
  | [], _ => true
  | _ :: _, [] => false
  | a :: s, b :: t =>
    if a.toNat < b.toNat then true
    else if b.toNat < a.toNat then false
    else lexLe s t

/-- Executable lexicographic comparison of strings. -/
def strLeB (a b : String) : Bool := lexLe a.data b.data

/-- Python sorted(set(l)) on strings: duplicates removed and the result
sorted lexicographically by code points. -/
def sortedSet (l : List String) : List String :=
  List.insertionSort (fun a b => strLeB a b = true) l.dedup

/-- Source def detect_topics: a topic is recorded when the first of
its pattern variants matches (recorded at most once per topic), and
the result is sorted(set(topics)). -/
def detect_topics (text : List Char) : List String :=
  sortedSet (TOPIC_KEYWORDS.filterMap
    (fun tp => if tp.2.any (fun p => reSearch p text) then some tp.1 else none))

/-- The result dict returned by build_response. -/
structure ResponseBundle where
  urgency : String
  urgency_color : String
  emergency_hits : List String
  urgent_hits : List String
  topics : List String
  mentions_meds : Bool
  suggestions : List String
  tracking : List String
  clinician_msg : List Char

/-- The urgency label of the rule-based if chain in build_response. -/
def urgencyOf (emergency_hits urgent_hits : List String) : String :=
  if emergency_hits ≠ [] then "EMERGENCY — act now"
  else if urgent_hits ≠ [] then "URGENT — contact a clinician soon"
  else "NON-URGENT — supportive steps & monitoring"

/-- The urgency color of the same if chain in build_response. -/
def urgencyColorOf (emergency_hits urgent_hits : List String) : String :=
  if emergency_hits ≠ [] then "red"
  else if urgent_hits ≠ [] then "orange"
  else "green"

/-- The three fixed emergency-action lines. -/
def EMERGENCY_SUGG : List String := [
  "**Call your local emergency number now** (e.g., 911 in the U.S.).",
  "If it’s safe, stay with the person and keep them comfortable until help arrives.",
  "If you can, note **when symptoms started** and any key history to share with responders."]

/-- The two fixed urgent-action lines. -/
def URGENT_SUGG : List String := [
  "Consider calling a licensed clinician/nurse line **today** for guidance, especially if symptoms are new or worsening.",
  "If there was a **fall/head impact**, monitor closely and seek professional guidance—especially for new symptoms."]

/-- The fixed medication-guardrail line. -/
def MED_NOTE : String :=
  "**Medication note:** This app cannot advise on medicines. **Do not start/stop/change doses** based on this tool. Contact a **pharmacist or prescriber** for medication questions or side effects."

/-- Fixed agitation/anxiety topic block. -/
def AGITATION_BLOCK : List String := [
  "**Agitation/anxiety support (general):**",
  "- Reduce stimulation (lower noise/light), offer calm reassurance, and keep your voice steady.",
  "- Check basic needs: hunger, thirst, toileting, temperature comfort.",
  "- Try a simple grounding activity: slow breathing together, familiar music, short walk if safe."]

/-- Fixed sleep topic block. -/
def SLEEP_BLOCK : List String := [
  "**Sleep support (general):**",
  "- Keep a consistent routine (wake time, light exposure in the morning).",
  "- Limit caffeine late in the day and reduce screen/light at night.",
  "- If sudden major sleep changes occur, consider discussing with a clinician."]

/-- Fixed pain topic block. -/
def PAIN_BLOCK : List String := [
  "**Pain support (general):**",
  "- Ask where it hurts and what makes it better/worse; note severity and timing.",
  "- Use comfort measures (rest, positioning, gentle heat/cold if appropriate and safe).",
  "- New or severe pain warrants professional guidance."]

/-- Fixed confusion/memory topic block. -/
def MEMORY_BLOCK : List String := [
  "**Confusion/memory changes (general):**",
  "- Use simple, reassuring cues; avoid arguing; offer one step at a time.",
  "- Note if confusion is **new/sudden**—that can be urgent and worth clinician input."]

/-- Fixed eating/drinking topic block. -/
def EATING_BLOCK : List String := [
  "**Eating/drinking support (general):**",
  "- Offer small sips/snacks more frequently and make food easy to chew/swallow.",
  "- Watch for dehydration signs (very dark urine, dizziness, very dry mouth) and seek guidance if concerned."]

/-- Fixed safety topic block. -/
def SAFETY_BLOCK : List String := [
  "**Safety support (general):**",
  "- Reduce fall risks (clear pathways, good lighting, assistive devices if already used).",
  "- If wandering risk: consider supervision, door alarms, ID bracelet, and a plan for if they leave."]

/-- Fixed mood topic block. -/
def MOOD_BLOCK : List String := [
  "**Mood support (general):**",
  "- Listen and validate feelings; try gentle structure and social connection if welcome.",
  "- If you notice any self-harm language or intent, treat it as urgent and seek immediate help."]

/-- Fixed caregiver-stress topic block. -/
def CAREGIVER_BLOCK : List String := [
  "**Caregiver support (you matter too):**",
  "- If possible, take a short break (even 5–10 minutes) and hydrate/eat.",
  "- Ask someone specific for help (e.g., “Can you sit with them for 30 minutes today?”).",
  "- Consider local respite, caregiver groups, or talking with a clinician/therapist for support."]

/-- The closing lines that build_response always appends: the divider,
the general-steps header and the four general steps as bullets. -/
def TAIL_SUGG : List String :=
  "---" :: "**Helpful next steps (general):**" ::
    GENERAL_STEPS.map (fun x => "- " ++ x)

/-- The suggestion-assembly straight line of build_response: an
append-chain of conditional blocks, in the order of the source. -/
def suggestionsOf (emergency_hits urgent_hits : List String)
    (mentions_meds : Bool) (topics : List String) : List String :=
  (if emergency_hits ≠ [] then EMERGENCY_SUGG else [])
  ++ (if urgent_hits ≠ [] ∧ emergency_hits = [] then URGENT_SUGG else [])
  ++ (if mentions_meds then [MED_NOTE] else [])
  ++ (if "agitation_or_anxiety" ∈ topics then AGITATION_BLOCK else [])
  ++ (if "sleep" ∈ topics then SLEEP_BLOCK else [])
  ++ (if "pain" ∈ topics then PAIN_BLOCK else [])
  ++ (if "memory_or_confusion" ∈ topics then MEMORY_BLOCK else [])
  ++ (if "eating_drinking" ∈ topics then EATING_BLOCK else [])
  ++ (if "safety" ∈ topics then SAFETY_BLOCK else [])
  ++ (if "mood" ∈ topics then MOOD_BLOCK else [])
  ++ (if "caregiver_stress" ∈ topics then CAREGIVER_BLOCK else [])
  ++ TAIL_SUGG

/-- The fixed what-to-track checklist. -/
def TRACKING : List String := [
  "- When it started / how it changed over time",
  "- Triggers (time of day, meals, new stressors, activity)",
  "- What helped (calm environment, hydration, rest, distraction)",
  "- Sleep, food, fluids, toileting changes",
  "- Any new safety risks (falls, wandering, choking)"]

/-- Text of the clinician message before the embedded input copy. -/
def MSG_PRE : List Char :=
  "Hello, I’m caring for someone and I’m concerned about the following:\n\n- What happened: ".data

/-- Text of the clinician message after the embedded input copy. -/
def MSG_SUF : List Char :=
  "\n- When it started / timeline:\n- Severity (mild/moderate/severe) and what has changed:\n- What we tried and what helped:\n- Any safety concerns (falls, breathing, confusion, etc.):\n\nCould you advise on next steps and whether we should be seen urgently?\n".data

/-- The clinician-message f-string: the fixed form with
user_text.strip()[:400] spliced into the What happened field. -/
def clinician_msg_of (user_text : List Char) : List Char :=
  MSG_PRE ++ (trim user_text).take 400 ++ MSG_SUF

/-- Source def build_response. -/
def build_response (user_text : List Char) : ResponseBundle :=
  let t := normalize user_text
  let emergency_hits := find_matches EMERGENCY_PATTERNS t
  let urgent_hits := find_matches URGENT_PATTERNS t
  let topics := detect_topics t
  let mentions_meds := reSearch MEDICATION_MENTION t
  { urgency := urgencyOf emergency_hits urgent_hits
    urgency_color := urgencyColorOf emergency_hits urgent_hits
    emergency_hits := emergency_hits
    urgent_hits := urgent_hits
    topics := topics
    mentions_meds := mentions_meds
    suggestions := suggestionsOf emergency_hits urgent_hits mentions_meds topics
    tracking := TRACKING
    clinician_msg := clinician_msg_of user_text }

/-- The run-handler boundary of the shell (the classify entry point of
the specification): an input that is empty after stripping is rejected
with a prompt and produces no bundle; otherwise build_response runs. -/
def classify (user_text : List Char) : Option ResponseBundle :=
  if trim user_text = [] then none else some (build_response user_text)

/-- Join a list of report lines with newline characters, the
backslash-n join of the export assembly. -/
def joinNL : List (List Char) → List Char
  | [] => []
  | [x] => x
  | x :: y :: t => x ++ '\n' :: joinNL (y :: t)

/-- Comma-space join of a list of labels. -/
def joinComma (l : List String) : List Char :=
  (String.intercalate ", " l).data

/-- The export lines from the urgency flags on: the optional flag
lines, the suggestions with the divider stripped and a dash prefix
added, the tracking checklist and the clinician message (source lines
294 to 310). -/
def export_rest (result : ResponseBundle) : List (List Char) :=
  (if result.emergency_hits ≠ [] then
    ["EMERGENCY FLAGS: ".data ++ joinComma result.emergency_hits] else [])
  ++ (if result.urgent_hits ≠ [] then
        ["URGENT FLAGS: ".data ++ joinComma result.urgent_hits] else [])
  ++ (if result.topics ≠ [] then
        ["TOPICS: ".data ++ joinComma result.topics] else [])
  ++ ([] :: "SUGGESTIONS:".data ::
      result.suggestions.filterMap
        (fun item => if item = "---" then none else some ("- " ++ item).data))
  ++ ([] :: "TRACKING CHECKLIST:".data :: TRACKING.map String.data)
  ++ ([] :: "CLINICIAN MESSAGE TEMPLATE:".data :: [result.clinician_msg])

/-- The export line list assembled by the shell from the original
input, a timestamp string and the bundle (source lines 286 to 310). -/
def export_lines (user_text ts : List Char) : List (List Char) :=
  let result := build_response user_text
  "Caregiver Support (Rule-Based Demo) — Export".data ::
  ("Generated: ".data ++ ts) ::
  [] ::
  "USER INPUT:".data ::
  trim user_text ::
  [] ::
  ("URGENCY: ".data ++ result.urgency.data) ::
  export_rest result

/-- The flat export report: the lines joined with newlines (the
exportReport operation of the specification). -/
def export_text (user_text ts : List Char) : List Char :=
  joinNL (export_lines user_text ts)

/-- Executable check that the first list is a leading block of the
second, character by character. -/
def startsWith : List Char → List Char → Bool
  | [], _ => true
  | _ :: _, [] => false
  | a :: s, b :: t => a == b && startsWith s t

/-- Executable verbatim-occurrence check: does the needle occur as a
contiguous block somewhere in the haystack. -/
def containsSub (needle hay : List Char) : Bool :=
  match hay with
  | [] => needle.isEmpty
  | _ :: rest => startsWith needle hay || containsSub needle rest

/-- The fixed per-topic emission order of the assembler, the order of
the if blocks in build_response. -/
def TOPIC_ORDER : List String :=
  ["agitation_or_anxiety", "sleep", "pain", "memory_or_confusion",
   "eating_drinking", "safety", "mood", "caregiver_stress"]

/-- The fixed suggestion block belonging to one topic name. -/
def TOPIC_BLOCK (tp : String) : List String :=
  if tp = "agitation_or_anxiety" then AGITATION_BLOCK
  else if tp = "sleep" then SLEEP_BLOCK
  else if tp = "pain" then PAIN_BLOCK
  else if tp = "memory_or_confusion" then MEMORY_BLOCK
  else if tp = "eating_drinking" then EATING_BLOCK
  else if tp = "safety" then SAFETY_BLOCK
  else if tp = "mood" then MOOD_BLOCK
  else if tp = "caregiver_stress" then CAREGIVER_BLOCK
  else []

/-- Emission of one block per matched topic, iterating the fixed
per-topic order of the specification. -/
def topic_emission (topics : List String) : List String :=
  (TOPIC_ORDER.map (fun tp => if tp ∈ topics then TOPIC_BLOCK tp else [])).flatten

/-- Concrete scenario 1 of the specification: the text Mom fell
yesterday and seems more confused today. She will not eat much and is
agitated in the evening. -/
def scenario1_input : List Char :=
  "Mom fell yesterday and seems more confused today. She won".data ++
    apos :: "t eat much and is agitated in the evening.".data

/-!  Helper lemmas. -/

theorem mem_ite_nil_iff {α : Type} (x : α) (c : Prop) [Decidable c]
    (l : List α) : x ∈ (if c then l else []) ↔ c ∧ x ∈ l := by
  split <;> simp_all

theorem isSpace_lowerChar (c : Char) : isSpace (lowerChar c) = isSpace c := by
  unfold lowerChar
  split <;> rfl

theorem trim_append_left {u x : List Char} (hu : ∀ c ∈ u, isSpace c) :
    trim (u ++ x) = trim x := by
  unfold trim
  rw [List.dropWhile_append_of_pos hu]

theorem trim_append_right {x v : List Char} (hv : ∀ c ∈ v, isSpace c) :
    trim (x ++ v) = trim x := by
  unfold trim
  by_cases h : (x.dropWhile isSpace).isEmpty
  · have hx : x.dropWhile isSpace = [] := by simpa using h
    have hv2 : v.dropWhile isSpace = [] :=
      List.dropWhile_eq_nil_iff.mpr hv
    rw [List.dropWhile_append]
    simp [hx, hv2]
  · have hx : x.dropWhile isSpace ≠ [] := by simpa using h
    rw [List.dropWhile_append, if_neg h, List.reverse_append,
      List.dropWhile_append_of_pos
        (fun c hc => hv c (List.mem_reverse.mp hc))]

theorem trim_pad {u x v : List Char} (hu : ∀ c ∈ u, isSpace c)
    (hv : ∀ c ∈ v, isSpace c) : trim (u ++ x ++ v) = trim x := by
  rw [List.append_assoc, trim_append_left hu, trim_append_right hv]

theorem map_lowerChar_trim (x : List Char) :
    (trim x).map lowerChar = trim (x.map lowerChar) := by
  have hs : (isSpace ∘ lowerChar) = isSpace := funext isSpace_lowerChar
  unfold trim
  simp only [List.dropWhile_map, hs, ← List.map_reverse]

theorem urgencyOf_iff (eh uh : List String) :
    (urgencyOf eh uh = "EMERGENCY — act now" ↔ eh ≠ []) ∧
    (urgencyOf eh uh = "URGENT — contact a clinician soon" ↔
      (eh = [] ∧ uh ≠ [])) ∧
    (urgencyOf eh uh = "NON-URGENT — supportive steps & monitoring" ↔
      (eh = [] ∧ uh = [])) := by
  unfold urgencyOf
  by_cases h1 : eh = [] <;> by_cases h2 : uh = [] <;> simp [h1, h2]

/-!  Claim theorems. -/

/-- C1: for every input, the urgency field of the bundle carries the
EMERGENCY label iff some emergency rule matched the normalized text,
the URGENT label iff no emergency rule matched and some urgent rule
did, and the NON-URGENT label iff neither matched; in particular the
tier is a function of the two hit lists alone, so topics and the
medication flag cannot influence it. -/
theorem urgency_tier_iff (text : List Char) :
    ((build_response text).urgency = "EMERGENCY — act now" ↔
      (build_response text).emergency_hits ≠ []) ∧
    ((build_response text).urgency = "URGENT — contact a clinician soon" ↔
      ((build_response text).emergency_hits = [] ∧
        (build_response text).urgent_hits ≠ [])) ∧
    ((build_response text).urgency =
        "NON-URGENT — supportive steps & monitoring" ↔
      ((build_response text).emergency_hits = [] ∧
        (build_response text).urgent_hits = [])) :=
  urgencyOf_iff _ _

/-- C1 witness: on a concrete emergency input the first equivalence
produces the EMERGENCY label from the nonempty hit list. -/
theorem urgency_tier_iff_witness :
    (build_response "chest pain".data).urgency = "EMERGENCY — act now" :=
  (urgency_tier_iff "chest pain".data).1.mpr (by decide)

/-- C2 counterexample: on the concrete scenario input the urgency tier
is not the NON-URGENT label, because the word fell matches the urgent
fall-or-head-impact rule, so the claimed conjunction fails. -/
theorem scenario1_counterexample :
    (build_response scenario1_input).urgency ≠
      "NON-URGENT — supportive steps & monitoring" := by
  decide

/-- C2 amended: on the scenario input the topic set does include
memory_or_confusion, eating_drinking and agitation_or_anxiety, but the
urgency tier is URGENT (not NON-URGENT): the word fell matches the
urgent fall-or-head-impact rule and no emergency rule matches. -/
theorem scenario1_amended :
    (build_response scenario1_input).topics =
      ["agitation_or_anxiety", "eating_drinking", "memory_or_confusion"] ∧
    (build_response scenario1_input).emergency_hits = [] ∧
    (build_response scenario1_input).urgent_hits = ["Fall or head impact"] ∧
    (build_response scenario1_input).urgency =
      "URGENT — contact a clinician soon" := by
  refine ⟨by decide, by decide, by decide, by decide⟩

/-- C7: an input that is empty after normalization is rejected at the
classify boundary and no bundle is produced. -/
theorem classify_rejects_empty (text : List Char)
    (h : normalize text = []) : classify text = none := by
  have ht : trim text = [] := List.map_eq_nil_iff.mp h
  simp [classify, ht]

/-- C7 witness: the three-space input is empty after normalization and
classify yields no bundle on it. -/
theorem classify_rejects_empty_witness :
    normalize "   ".data = [] ∧ classify "   ".data = none :=
  ⟨by decide, classify_rejects_empty "   ".data (by decide)⟩

/-- C4 counterexample: for an input with one leading space, the copy
embedded in the clinician message is not the first-400-character
prefix of the original input: the leading space is stripped first. -/
theorem clinician_copy_counterexample :
    (build_response " Hi".data).clinician_msg ≠
      MSG_PRE ++ " Hi".data.take 400 ++ MSG_SUF := by
  decide

/-- C4 amended: the clinician message always embeds a copy of at most
400 characters, and that copy is exactly the first 400 characters of
the whitespace-stripped original input, case preserved and not
re-normalized. -/
theorem clinician_copy_spec (text : List Char) :
    ∃ c, (build_response text).clinician_msg = MSG_PRE ++ c ++ MSG_SUF ∧
      c.length ≤ 400 ∧ c = (trim text).take 400 := by
  refine ⟨(trim text).take 400, rfl, ?_, rfl⟩
  exact List.length_take_le 400 (trim text)

theorem med_note_not_in_fixed_blocks :
    MED_NOTE ∉ EMERGENCY_SUGG ∧ MED_NOTE ∉ URGENT_SUGG ∧
    MED_NOTE ∉ AGITATION_BLOCK ∧ MED_NOTE ∉ SLEEP_BLOCK ∧
    MED_NOTE ∉ PAIN_BLOCK ∧ MED_NOTE ∉ MEMORY_BLOCK ∧
    MED_NOTE ∉ EATING_BLOCK ∧ MED_NOTE ∉ SAFETY_BLOCK ∧
    MED_NOTE ∉ MOOD_BLOCK ∧ MED_NOTE ∉ CAREGIVER_BLOCK ∧
    MED_NOTE ∉ TAIL_SUGG := by
  decide

theorem med_in_suggestionsOf_iff (eh uh : List String) (mm : Bool)
    (tps : List String) :
    MED_NOTE ∈ suggestionsOf eh uh mm tps ↔ mm = true := by
  obtain ⟨n1, n2, n3, n4, n5, n6, n7, n8, n9, n10, n11⟩ :=
    med_note_not_in_fixed_blocks
  have hself : MED_NOTE ∈ [MED_NOTE] := List.mem_singleton_self _
  unfold suggestionsOf
  simp only [List.mem_append, mem_ite_nil_iff]
  constructor
  · rintro (((((((((((⟨-, h⟩ | ⟨-, h⟩) | ⟨h, -⟩) | ⟨-, h⟩) | ⟨-, h⟩) |
      ⟨-, h⟩) | ⟨-, h⟩) | ⟨-, h⟩) | ⟨-, h⟩) | ⟨-, h⟩) | ⟨-, h⟩) | h)
    exacts [absurd h n1, absurd h n2, h, absurd h n3, absurd h n4,
      absurd h n5, absurd h n6, absurd h n7, absurd h n8, absurd h n9,
      absurd h n10, absurd h n11]
  · intro h
    exact Or.inl (Or.inl (Or.inl (Or.inl (Or.inl (Or.inl (Or.inl
      (Or.inl (Or.inl (Or.inr ⟨h, hself⟩)))))))))

/-- C5: for every input, the fixed medication-guardrail line is among
the suggestions iff the medication regex matched the normalized text,
with no dependence on the urgency tier. -/
theorem med_guardrail_iff (text : List Char) :
    MED_NOTE ∈ (build_response text).suggestions ↔
      (build_response text).mentions_meds = true :=
  med_in_suggestionsOf_iff _ _ _ _

/-- C5 witness: an EMERGENCY-tier input that mentions a pill still
receives the medication guardrail line. -/
theorem med_guardrail_iff_witness :
    MED_NOTE ∈ (build_response "chest pain, needs a pill".data).suggestions ∧
    (build_response "chest pain, needs a pill".data).urgency =
      "EMERGENCY — act now" :=
  ⟨(med_guardrail_iff "chest pain, needs a pill".data).mpr (by decide),
    by decide⟩

theorem divider_not_in_fixed_blocks :
    "---" ∉ EMERGENCY_SUGG ∧ "---" ∉ URGENT_SUGG ∧ "---" ∉ [MED_NOTE] ∧
    "---" ∉ AGITATION_BLOCK ∧ "---" ∉ SLEEP_BLOCK ∧ "---" ∉ PAIN_BLOCK ∧
    "---" ∉ MEMORY_BLOCK ∧ "---" ∉ EATING_BLOCK ∧ "---" ∉ SAFETY_BLOCK ∧
    "---" ∉ MOOD_BLOCK ∧ "---" ∉ CAREGIVER_BLOCK ∧
    "---" ∉ "**Helpful next steps (general):**" ::
      GENERAL_STEPS.map (fun x => "- " ++ x) := by
  decide

theorem suggestionsOf_divider (eh uh : List String) (mm : Bool)
    (tps : List String) :
    ∃ pre, "---" ∉ pre ∧
      suggestionsOf eh uh mm tps =
        pre ++ "---" :: "**Helpful next steps (general):**" ::
          GENERAL_STEPS.map (fun x => "- " ++ x) := by
  refine ⟨(if eh ≠ [] then EMERGENCY_SUGG else [])
    ++ (if uh ≠ [] ∧ eh = [] then URGENT_SUGG else [])
    ++ (if mm then [MED_NOTE] else [])
    ++ (if "agitation_or_anxiety" ∈ tps then AGITATION_BLOCK else [])
    ++ (if "sleep" ∈ tps then SLEEP_BLOCK else [])
    ++ (if "pain" ∈ tps then PAIN_BLOCK else [])
    ++ (if "memory_or_confusion" ∈ tps then MEMORY_BLOCK else [])
    ++ (if "eating_drinking" ∈ tps then EATING_BLOCK else [])
    ++ (if "safety" ∈ tps then SAFETY_BLOCK else [])
    ++ (if "mood" ∈ tps then MOOD_BLOCK else [])
    ++ (if "caregiver_stress" ∈ tps then CAREGIVER_BLOCK else []), ?_, ?_⟩
  · obtain ⟨n1, n2, n3, n4, n5, n6, n7, n8, n9, n10, n11, -⟩ :=
      divider_not_in_fixed_blocks
    intro h
    simp only [List.mem_append, mem_ite_nil_iff] at h
    rcases h with ((((((((((⟨-, h⟩ | ⟨-, h⟩) | ⟨-, h⟩) | ⟨-, h⟩) |
      ⟨-, h⟩) | ⟨-, h⟩) | ⟨-, h⟩) | ⟨-, h⟩) | ⟨-, h⟩) | ⟨-, h⟩) | ⟨-, h⟩)
    exacts [absurd h n1, absurd h n2, absurd h n3, absurd h n4,
      absurd h n5, absurd h n6, absurd h n7, absurd h n8, absurd h n9,
      absurd h n10, absurd h n11]
  · simp [suggestionsOf, TAIL_SUGG, List.append_assoc]

/-- C10: for every input the suggestion list contains the divider
sentinel exactly once, the element right after it is the general-steps
header followed by the four general steps, and the list always has at
least six elements. -/
theorem divider_exactly_once (text : List Char) :
    (build_response text).suggestions.count "---" = 1 ∧
    6 ≤ (build_response text).suggestions.length ∧
    ∃ pre, "---" ∉ pre ∧
      (build_response text).suggestions =
        pre ++ "---" :: "**Helpful next steps (general):**" ::
          GENERAL_STEPS.map (fun x => "- " ++ x) := by
  obtain ⟨pre, hpre, heq⟩ := suggestionsOf_divider
    (find_matches EMERGENCY_PATTERNS (normalize text))
    (find_matches URGENT_PATTERNS (normalize text))
    (reSearch MEDICATION_MENTION (normalize text))
    (detect_topics (normalize text))
  have hs : (build_response text).suggestions =
      pre ++ "---" :: "**Helpful next steps (general):**" ::
        GENERAL_STEPS.map (fun x => "- " ++ x) := heq
  have htail : ("---" :: "**Helpful next steps (general):**" ::
      GENERAL_STEPS.map (fun x => "- " ++ x)).count "---" = 1 := by decide
  refine ⟨?_, ?_, pre, hpre, hs⟩
  · rw [hs, List.count_append, List.count_eq_zero.mpr hpre, htail]
  · rw [hs, List.length_append]
    have : ("---" :: "**Helpful next steps (general):**" ::
        GENERAL_STEPS.map (fun x => "- " ++ x)).length = 6 := by decide
    omega

theorem suggestionsOf_block_order (eh uh : List String) (mm : Bool)
    (tps : List String) :
    suggestionsOf eh uh mm tps =
      (if urgencyOf eh uh = "EMERGENCY — act now" then EMERGENCY_SUGG else [])
      ++ (if urgencyOf eh uh = "URGENT — contact a clinician soon"
            then URGENT_SUGG else [])
      ++ (if mm = true then [MED_NOTE] else [])
      ++ topic_emission tps
      ++ "---" :: "**Helpful next steps (general):**" ::
          GENERAL_STEPS.map (fun x => "- " ++ x) := by
  unfold suggestionsOf topic_emission TOPIC_ORDER TOPIC_BLOCK TAIL_SUGG
  by_cases h1 : eh = [] <;> by_cases h2 : uh = [] <;>
    simp [h1, h2, urgencyOf, List.append_assoc]

/-- C8: for every input the suggestion sequence is the fixed block
order: emergency lines only on the EMERGENCY tier, urgent lines only
on the URGENT tier, then the medication guardrail when medication is
mentioned, then one block per matched topic in the fixed per-topic
order, and finally the divider, the header line and the four fixed
general steps. -/
theorem suggestions_block_order (text : List Char) :
    (build_response text).suggestions =
      (if (build_response text).urgency = "EMERGENCY — act now"
        then EMERGENCY_SUGG else [])
      ++ (if (build_response text).urgency = "URGENT — contact a clinician soon"
            then URGENT_SUGG else [])
      ++ (if (build_response text).mentions_meds = true then [MED_NOTE] else [])
      ++ topic_emission (build_response text).topics
      ++ "---" :: "**Helpful next steps (general):**" ::
          GENERAL_STEPS.map (fun x => "- " ++ x) :=
  suggestionsOf_block_order _ _ _ _

/-- C9: matching is case-insensitive and insensitive to leading and
trailing whitespace: whenever two raw inputs consist of
whitespace-only padding around cores that agree up to ASCII case, the
emergency hits, urgent hits, topics, medication flag and urgency tier
of the two classifications coincide. -/
theorem classify_case_ws_insensitive
    (u1 c1 v1 u2 c2 v2 : List Char)
    (hu1 : ∀ ch ∈ u1, isSpace ch) (hv1 : ∀ ch ∈ v1, isSpace ch)
    (hu2 : ∀ ch ∈ u2, isSpace ch) (hv2 : ∀ ch ∈ v2, isSpace ch)
    (hcase : c1.map lowerChar = c2.map lowerChar) :
    (build_response (u1 ++ c1 ++ v1)).emergency_hits =
      (build_response (u2 ++ c2 ++ v2)).emergency_hits ∧
    (build_response (u1 ++ c1 ++ v1)).urgent_hits =
      (build_response (u2 ++ c2 ++ v2)).urgent_hits ∧
    (build_response (u1 ++ c1 ++ v1)).topics =
      (build_response (u2 ++ c2 ++ v2)).topics ∧
    (build_response (u1 ++ c1 ++ v1)).mentions_meds =
      (build_response (u2 ++ c2 ++ v2)).mentions_meds ∧
    (build_response (u1 ++ c1 ++ v1)).urgency =
      (build_response (u2 ++ c2 ++ v2)).urgency := by
  have hnorm : normalize (u1 ++ c1 ++ v1) = normalize (u2 ++ c2 ++ v2) := by
    unfold normalize
    rw [trim_pad hu1 hv1, trim_pad hu2 hv2, map_lowerChar_trim,
      map_lowerChar_trim, hcase]
  have he : ∀ x : List Char, (build_response x).emergency_hits =
      find_matches EMERGENCY_PATTERNS (normalize x) := fun _ => rfl
  have hu : ∀ x : List Char, (build_response x).urgent_hits =
      find_matches URGENT_PATTERNS (normalize x) := fun _ => rfl
  have htp : ∀ x : List Char, (build_response x).topics =
      detect_topics (normalize x) := fun _ => rfl
  have hm : ∀ x : List Char, (build_response x).mentions_meds =
      reSearch MEDICATION_MENTION (normalize x) := fun _ => rfl
  have hg : ∀ x : List Char, (build_response x).urgency =
      urgencyOf (find_matches EMERGENCY_PATTERNS (normalize x))
        (find_matches URGENT_PATTERNS (normalize x)) := fun _ => rfl
  refine ⟨?_, ?_, ?_, ?_, ?_⟩ <;>
    simp only [he, hu, htp, hm, hg, hnorm]

/-- C9 witness: the all-caps input Chest Pain and a padded lowercase
variant produce identical hits, topics, medication flag and tier. -/
theorem classify_case_ws_insensitive_witness :
    (build_response ([] ++ "Chest Pain".data ++ [])).emergency_hits =
      (build_response ("  ".data ++ "chest pain".data ++ " ".data)).emergency_hits ∧
    (build_response ([] ++ "Chest Pain".data ++ [])).urgent_hits =
      (build_response ("  ".data ++ "chest pain".data ++ " ".data)).urgent_hits ∧
    (build_response ([] ++ "Chest Pain".data ++ [])).topics =
      (build_response ("  ".data ++ "chest pain".data ++ " ".data)).topics ∧
    (build_response ([] ++ "Chest Pain".data ++ [])).mentions_meds =
      (build_response ("  ".data ++ "chest pain".data ++ " ".data)).mentions_meds ∧
    (build_response ([] ++ "Chest Pain".data ++ [])).urgency =
      (build_response ("  ".data ++ "chest pain".data ++ " ".data)).urgency :=
  classify_case_ws_insensitive [] "Chest Pain".data [] "  ".data
    "chest pain".data " ".data (by decide) (by decide) (by decide)
    (by decide) (by decide)

theorem char_eq_of_toNat_eq {a b : Char} (h : a.toNat = b.toNat) : a = b :=
  Char.ext (UInt32.toNat.inj h)

theorem char_lt_iff_toNat {a b : Char} : a < b ↔ a.toNat < b.toNat := by
  rw [Char.lt_iff_val_lt_val, UInt32.lt_def, BitVec.lt_def]
  exact Iff.rfl

theorem lexLe_iff_not_lex (s t : List Char) :
    lexLe s t = true ↔ ¬ List.Lex (· < ·) t s := by
  induction s generalizing t with
  | nil =>
    simp [lexLe]
  | cons a as ih =>
    cases t with
    | nil =>
      exact iff_of_false (by simp [lexLe]) (not_not_intro List.Lex.nil)
    | cons b bs =>
      unfold lexLe
      rcases Nat.lt_trichotomy a.toNat b.toNat with h1 | h1 | h1
      · rw [if_pos h1]
        refine iff_of_true rfl fun hlex => ?_
        cases hlex with
        | rel h => exact absurd (char_lt_iff_toNat.mp h) (by omega)
        | cons h => exact absurd h1 (by omega)
      · have hab : a = b := char_eq_of_toNat_eq h1
        subst hab
        rw [if_neg (by omega), if_neg (by omega), List.Lex.cons_iff]
        exact ih bs
      · rw [if_neg (by omega), if_pos h1]
        exact iff_of_false (by simp)
          (not_not_intro (List.Lex.rel (char_lt_iff_toNat.mpr h1)))

theorem strLeB_iff (a b : String) : strLeB a b = true ↔ a ≤ b := by
  have h1 : (a ≤ b) ↔ ¬ b < a := Iff.rfl
  rw [h1, String.lt_iff_toList_lt]
  exact lexLe_iff_not_lex a.data b.data

/-- C6: for every (normalized) input text, the topic output is
duplicate-free (each topic recorded at most once), lexicographically
sorted, and contains a topic name exactly when one of the pattern
variants of that topic matches the text. -/
theorem detect_topics_spec (text : List Char) :
    (detect_topics text).Nodup ∧
    List.Pairwise (· ≤ ·) (detect_topics text) ∧
    (∀ tp, tp ∈ detect_topics text ↔
      ∃ pats, (tp, pats) ∈ TOPIC_KEYWORDS ∧
        pats.any (fun p => reSearch p text) = true) := by
  haveI htot : IsTotal String (fun a b => strLeB a b = true) := ⟨fun a b => by
    rcases le_total a b with h | h
    · exact Or.inl ((strLeB_iff a b).mpr h)
    · exact Or.inr ((strLeB_iff b a).mpr h)⟩
  haveI htrans : IsTrans String (fun a b => strLeB a b = true) :=
    ⟨fun a b c hab hbc => (strLeB_iff a c).mpr
      (le_trans ((strLeB_iff a b).mp hab) ((strLeB_iff b c).mp hbc))⟩
  refine ⟨?_, ?_, ?_⟩
  · exact ((List.perm_insertionSort _ _).nodup_iff).mpr (List.nodup_dedup _)
  · exact List.Pairwise.imp (fun h => (strLeB_iff _ _).mp h)
      (List.sorted_insertionSort _ _)
  · intro tp
    unfold detect_topics sortedSet
    rw [List.mem_insertionSort, List.mem_dedup, List.mem_filterMap]
    constructor
    · rintro ⟨⟨name, pats⟩, hmem, heq⟩
      split at heq
      · rename_i hc
        have hn : name = tp := Option.some.inj heq
        subst hn
        exact ⟨pats, hmem, hc⟩
      · exact absurd heq (by simp)
    · rintro ⟨pats, hmem, hc⟩
      refine ⟨(tp, pats), hmem, ?_⟩
      have hc2 : (tp, pats).2.any (fun p => reSearch p text) = true := hc
      rw [if_pos hc2]

/-- C6 witness: on the normalized scenario input the topic output is
the sorted duplicate-free list and membership matches the rules, as
instantiated for the eating_drinking topic. -/
theorem detect_topics_spec_witness :
    (detect_topics (normalize scenario1_input)).Nodup ∧
    List.Pairwise (· ≤ ·) (detect_topics (normalize scenario1_input)) :=
  ⟨(detect_topics_spec (normalize scenario1_input)).1,
    (detect_topics_spec (normalize scenario1_input)).2.1⟩

theorem export_text_decomp (text ts : List Char) :
    export_text text ts =
      ("Caregiver Support (Rule-Based Demo) — Export".data ++ '\n' ::
        ("Generated: ".data ++ ts) ++ '\n' :: '\n' :: "USER INPUT:".data
          ++ ['\n'])
      ++ trim text
      ++ '\n' :: '\n' ::
          joinNL (("URGENCY: ".data ++ (build_response text).urgency.data) ::
            export_rest (build_response text)) := by
  simp [export_text, export_lines, joinNL, List.append_assoc]

/-- C3 amended: the export report contains the whitespace-stripped
original input verbatim and untruncated (in full even past 400
characters, and even when the clinician-message copy was truncated);
leading and trailing whitespace of the raw input is not preserved. -/
theorem export_contains_stripped_input (text ts : List Char) :
    trim text <:+: export_text text ts := by
  rw [export_text_decomp]
  exact List.infix_append _ _ _

theorem startsWith_iff (n h : List Char) : startsWith n h = true ↔ n <+: h := by
  induction n generalizing h with
  | nil => simp [startsWith]
  | cons a s ih =>
    cases h with
    | nil => simp [startsWith]
    | cons b t => simp [startsWith, ih]

theorem containsSub_iff (n h : List Char) : containsSub n h = true ↔ n <:+: h := by
  induction h with
  | nil => simp [containsSub]
  | cons b t ih =>
    rw [List.infix_cons_iff]
    simp [containsSub, startsWith_iff, ih]

/-- C3 counterexample: for the input qzqz with a trailing space, the
raw input does not occur verbatim anywhere in the export text: only
its stripped form does. -/
theorem export_counterexample :
    ¬ ("qzqz ".data <:+:
        export_text "qzqz ".data "2026-02-03T04:05:06".data) := by
  rw [← containsSub_iff]
  decide

end Caregiver
